import Mathlib

set_option maxHeartbeats 1000000

namespace FilesService

/-- A Python/JSON value as it flows through the service: request payloads,
record attributes (SQLAlchemy model attributes are dynamically typed until
commit), and serialized responses. Mirrors the value universe the code in
`src/service/models/files.py` actually manipulates. -/
inductive Value where
  | null : Value
  | bool (b : Bool) : Value
  | int (n : Int) : Value
  | str (s : String) : Value
  | list (xs : List Value) : Value
  | dict (entries : List (String × Value)) : Value

/-- `v.isDict = true` iff the Python value is a dict. -/
def Value.isDict : Value → Bool
  | .dict _ => true
  | _ => false

/-- Truthiness helper used for boolean columns. -/
def Value.isTrue : Value → Bool
  | .bool true => true
  | _ => false

/-- The persisted File row of `src/service/models/files.py` (class Files).
`id` is `none` until the store assigns a primary key (Python `None`).
`webbot_id` is an integer after `deserialize` coerces it with `int(...)`;
every code path assigns it before persisting. Timestamps are abstract
ticks (`datetime.utcnow()` snapshots). All other columns keep the raw
Python value assigned to the attribute. -/
structure FileRecord where
  id : Option Int
  webbot_id : Int
  name : Value
  s3_path : Value
  file_type : Value
  source : Value
  source_url : Value
  created_date : Nat
  modified_date : Nat
  active : Value
  status : Value
  allow_questions : Value
  public : Value
  labels : Value
  extra_info : Value

namespace Files

/-- `Files()`: a fresh instance. Column defaults from the table schema
(`s3_path ""`, `file_type ""`, `source KNOWLEDGE`, `source_url None`,
`active True`, `status CREATED`, `allow_questions True`, `public False`,
`labels` and `extra_info` empty dicts); `name` is unset (`None`) and
`webbot_id` (no default, written before any persist) starts at 0 here. -/
def new : FileRecord :=
  { id := none
    webbot_id := 0
    name := .null
    s3_path := .str ""
    file_type := .str ""
    source := .str "KNOWLEDGE"
    source_url := .null
    created_date := 0
    modified_date := 0
    active := .bool true
    status := .str "CREATED"
    allow_questions := .bool true
    public := .bool false
    labels := .dict []
    extra_info := .dict [] }

end Files

/-- Python dict subscript/`.get` lookup on our association-list dicts. -/
def dictLookup (entries : List (String × Value)) (k : String) : Option Value :=
  (entries.find? (fun e => e.fst == k)).map (fun e => e.snd)

/-- Decimal digits check for the string form accepted by Python `int(str)`. -/
def allDigits (cs : List Char) : Bool :=
  cs.all (fun c => c.isDigit)

/-- Whitespace stripped from both ends of a character list (Python
`str.strip()`). -/
def stripChars (cs : List Char) : List Char :=
  ((cs.dropWhile Char.isWhitespace).reverse.dropWhile Char.isWhitespace).reverse

/-- The numeric value of a run of decimal digits. -/
def digitsVal (cs : List Char) : Nat :=
  cs.foldl (fun acc c => acc * 10 + (c.toNat - 48)) 0

/-- Python `int(s)` on a string: surrounding whitespace stripped, an optional
sign, then a non-empty run of decimal digits; anything else raises
`ValueError`. -/
def pyIntOfString (s : String) : Option Int :=
  match stripChars s.toList with
  | [] => none
  | c :: rest =>
    if c = '-' then
      if rest ≠ [] ∧ allDigits rest then some (-(Int.ofNat (digitsVal rest)))
      else none
    else if c = '+' then
      if rest ≠ [] ∧ allDigits rest then some (Int.ofNat (digitsVal rest))
      else none
    else if allDigits (c :: rest) then some (Int.ofNat (digitsVal (c :: rest)))
    else none

/-- The exceptions `Files.deserialize` can see from its body. -/
inductive PyErr where
  | keyError (k : String)
  | typeError (m : String)
  | valueError (m : String)
  deriving Repr, DecidableEq

/-- Python `int(v)`: identity on ints, 1/0 on bools, digit parsing on
strings (`ValueError` on failure), `TypeError` on everything else. -/
def pyInt : Value → Except PyErr Int
  | .int n => .ok n
  | .bool b => .ok (if b then 1 else 0)
  | .str s =>
    match pyIntOfString s with
    | some n => .ok n
    | none => .error (.valueError ("invalid literal for int with base 10: " ++ s))
  | .null => .error (.typeError "int argument must be a string or a number, not NoneType")
  | .list _ => .error (.typeError "int argument must be a string or a number, not list")
  | .dict _ => .error (.typeError "int argument must be a string or a number, not dict")

namespace Files

/-- `Files.serialize`: the record as a flat dictionary, in the order the
source builds it; timestamps render with `isoformat()` (modelled as the
decimal rendering of the tick, an injective map). -/
def serialize (r : FileRecord) : List (String × Value) :=
  [ ("id", match r.id with | none => Value.null | some n => Value.int n)
  , ("name", r.name)
  , ("labels", r.labels)
  , ("webbot_id", Value.int r.webbot_id)
  , ("s3_path", r.s3_path)
  , ("file_type", r.file_type)
  , ("created_date", Value.str (toString r.created_date))
  , ("modified_date", Value.str (toString r.modified_date))
  , ("active", r.active)
  , ("status", r.status)
  , ("allow_questions", r.allow_questions)
  , ("extra_info", r.extra_info)
  , ("source", r.source)
  , ("source_url", r.source_url)
  , ("public", r.public)
  , ("file_id", match r.id with | none => Value.null | some n => Value.int n) ]

/-- The `TypeError` message raised by `data["name"]` when `data` is not a
dict (the first statement of the `try` block in `Files.deserialize`). -/
def subscriptTypeError : Value → String
  | .null => "NoneType object is not subscriptable"
  | .bool _ => "bool object is not subscriptable"
  | .int _ => "int object is not subscriptable"
  | .str _ => "string indices must be integers"
  | .list _ => "list indices must be integers or slices, not str"
  | .dict _ => ""

/-- `Files.deserialize(self, data)`: sets the attributes of `self` from the
dictionary, translating `KeyError`/`TypeError`/`ValueError` into
`DataValidationError` messages exactly as the source's `except` clauses do.
`id`, `created_date` and `modified_date` are never read from the input. -/
def deserialize (data : Value) (self : FileRecord) : Except String FileRecord :=
  match data with
  | .dict es =>
    match dictLookup es "name" with
    | none => .error ("Invalid File: missing " ++ "name")
    | some nameV =>
      match dictLookup es "webbot_id" with
      | none => .error ("Invalid File: missing " ++ "webbot_id")
      | some wv =>
        match pyInt wv with
        | .error (.typeError m) =>
          .error ("Invalid File: body of request contained bad or no data " ++ m)
        | .error (.valueError m) =>
          .error ("Invalid Webbot: body of request contained bad or no data " ++ m)
        | .error (.keyError k) => .error ("Invalid File: missing " ++ k)
        | .ok w =>
          .ok { self with
                name := nameV
                labels := (dictLookup es "labels").getD (.dict [])
                webbot_id := w
                s3_path := (dictLookup es "s3_path").getD (.str "")
                file_type := (dictLookup es "file_type").getD (.str "")
                source := (dictLookup es "source").getD (.str "KNOWLEDGE")
                active := (dictLookup es "active").getD (.bool true)
                status := (dictLookup es "status").getD (.str "CREATED")
                allow_questions := (dictLookup es "allow_questions").getD (.bool true)
                extra_info := (dictLookup es "extra_info").getD (.dict [])
                source_url := (dictLookup es "source_url").getD .null
                public := (dictLookup es "public").getD (.bool false) }
  | other =>
    .error ("Invalid File: body of request contained bad or no data "
            ++ subscriptTypeError other)

/-- `Files.create`: clears `id` so the store assigns the next key (modelled
by the supplied fresh `newId`), stamps both timestamps to now, commits. -/
def create (r : FileRecord) (newId : Int) (t : Nat) : FileRecord :=
  { r with id := some newId, created_date := t, modified_date := t }

/-- `Files.update`: `if not self.id: raise DataValidationError(...)` —
Python falsiness of `None` and `0` — then refreshes the modified
timestamp and commits. -/
def update (r : FileRecord) (t : Nat) : Except String FileRecord :=
  if r.id = none ∨ r.id = some 0 then
    .error "Update called with empty ID field"
  else
    .ok { r with modified_date := t }

/-- `Files.delete`: the soft delete — sets `active = False`, refreshes the
modified timestamp and commits; the row itself is not removed. -/
def delete (r : FileRecord) (t : Nat) : FileRecord :=
  { r with active := .bool false, modified_date := t }

/-- The database as the list of committed rows. -/
abbrev DB := List FileRecord

/-- `Files.find`: `query.get(file_id)` — primary-key lookup, no filter on
`active`. -/
def find (db : DB) (file_id : Int) : Option FileRecord :=
  db.find? (fun r => r.id == some file_id)

/-- `Files.all`: `query.filter(cls.active == True)`. -/
def all (db : DB) : DB :=
  db.filter (fun r => r.active.isTrue)

end Files

/-- A SQLAlchemy binary expression `column == literal` as it appears in the
finder methods. -/
inductive SAExpr where
  | webbotEq (v : Int)
  | activeEq (v : Bool)
  deriving Repr, DecidableEq

/-- `BinaryExpression.__bool__`: for the `==` operator SQLAlchemy compares
the hashes of the two original operands; a mapped column and a Python
literal are distinct objects, so the expression is falsy. -/
def SAExpr.truthiness : SAExpr → Bool := fun _ => false

/-- Python `a and b`: returns `b` when `a` is truthy, else `a` itself. -/
def pyAnd (a b : SAExpr) : SAExpr :=
  if a.truthiness then b else a

/-- Evaluating a comparison expression against a row. -/
def SAExpr.eval : SAExpr → FileRecord → Bool
  | .webbotEq v, r => r.webbot_id == v
  | .activeEq v, r =>
    match r.active with
    | .bool b => b == v
    | _ => false

namespace Files

/-- `Files.find_by_webbot_id`:
`cls.query.filter(cls.webbot_id == webbot_id and cls.active == True)` —
the filter argument is the Python `and` of the two comparison
expressions. -/
def find_by_webbot_id (db : DB) (webbot_id : Int) : DB :=
  db.filter ((pyAnd (.webbotEq webbot_id) (.activeEq true)).eval)

end Files

/-- `FilesCollection.get` with a `webbot_id` query argument:
`Files.query.filter_by(webbot_id=X)` — a plain equality filter on the
given column only. -/
def filesCollection_get_by_webbot_id (db : Files.DB) (x : Int) : Files.DB :=
  db.filter (fun r => r.webbot_id == x)

/-- Replacing the committed row with id `i` (a `db.session.commit()` after
mutating the mapped instance found under that id). -/
def dbCommit (db : Files.DB) (i : Int) (r : FileRecord) : Files.DB :=
  db.map (fun x => if x.id == some i then r else x)

/-- What `FilesResource.put` can answer with. -/
inductive PutResult where
  | notFound404
  | badRequest400 (msg : String)
  | ok200 (db : Files.DB) (record : FileRecord)

/-- `FilesResource.put` (PUT /files/{id}), after the content-type check:
find the record (404 when absent), `deserialize` the JSON body onto it
(`DataValidationError` becomes 400), force `files.id = file_id`, then
`update()` (refresh modified timestamp, commit). -/
def filesResource_put (db : Files.DB) (file_id : Int) (data : Value) (t : Nat) :
    PutResult :=
  match Files.find db file_id with
  | none => .notFound404
  | some files =>
    match Files.deserialize data files with
    | .error m => .badRequest400 m
    | .ok f1 =>
      let f2 : FileRecord := { f1 with id := some file_id }
      match Files.update f2 t with
      | .error m => .badRequest400 m
      | .ok f3 => .ok200 (dbCommit db file_id f3) f3

/-! ## Object store client (`src/service/common/s3_handler.py`) -/

/-- The outcome of the underlying `boto3` client call, an external effect:
it can succeed, raise `botocore.exceptions.ClientError`, or raise an
exception of any other class (e.g. a failed-upload wrapper or an OS
error). -/
inductive S3Outcome where
  | ok
  | clientError (msg : String)
  | otherError (msg : String)
  deriving Repr, DecidableEq

namespace S3Handler

/-- `S3Handler.upload_files`: runs the client upload inside
`try ... except ClientError as e: logging.error(e); return False` and
returns `True` after a call that did not raise. An exception that is not a
`ClientError` escapes the handler (there is no other `except` clause). -/
def upload_files (outcome : S3Outcome) : Except String Bool :=
  match outcome with
  | .ok => .ok true
  | .clientError _ => .ok false
  | .otherError m => .error m

/-- `S3Handler.download_files`: same shape — `ClientError` is logged and
swallowed into `False`, success returns `True`. -/
def download_files (outcome : S3Outcome) : Except String Bool :=
  match outcome with
  | .ok => .ok true
  | .clientError _ => .ok false
  | .otherError m => .error m

end S3Handler

/-! ## The upload endpoint (`UploadFile.post` in `src/service/routes/files.py`) -/

/-- The externally determined circumstances of one submitted multipart
file: its filename, its guessed MIME type, whether `file.save` raises
(a staging-disk error), and the outcome of the object-store push. -/
structure UploadEnv where
  filename : String
  guessedType : Value
  saveError : Option String
  s3 : S3Outcome

/-- An observable step of the upload loop: a committed database write, the
staging save of the incoming stream, or the object-store push. -/
inductive UploadEvent where
  | dbWrite (r : FileRecord)
  | stageSave (filename : String)
  | s3Put (filename : String)

/-- `true` only for a committed write whose row has the given status
string. -/
def UploadEvent.isWriteWithStatus (s : String) : UploadEvent → Bool
  | .dbWrite r =>
    match r.status with
    | .str s2 => s2 == s
    | _ => false
  | _ => false

/-- One entry of the endpoint's `files_meta` response list. -/
structure UploadEntry where
  file_id : Option Int
  filename : Value
  status : Value
  tables : List Int
  text_file_id : Option Int
  table_count : Nat

/-- Everything one iteration of the per-file loop produces. -/
structure PerFileRun where
  meta : FileRecord
  events : List UploadEvent
  entry : UploadEntry

/-- The record built and committed first in each iteration:
`file_meta = Files(); file_meta.name = file.filename;
file_meta.status = FileStatus.UPLOADING.value;
file_meta.webbot_id = webbot_id;
file_meta.file_type = mimetypes.guess_type(...)[0]; file_meta.create()`. -/
def mkMeta (webbot_id : Int) (e : UploadEnv) (newId : Int) (t : Nat) : FileRecord :=
  Files.create
    { Files.new with
      name := .str e.filename
      status := .str "UPLOADING"
      webbot_id := webbot_id
      file_type := e.guessedType }
    newId t

/-- The S3 key prefix `conf.AWS_S3_PREFIX.format(webbot_id=webbot_id)`. -/
def s3KeyStart (webbot_id : Int) : String :=
  "webbot/" ++ toString webbot_id ++ "/"

/-- One iteration of `for file in files:` in `UploadFile.post`. The record
is created (status `UPLOADING`), then inside `try`: the stream is staged
to disk, `s3_handler.upload_files(...)` is called — its boolean result is
not inspected — the remote path and `UPLOAD_SUCCESS` are written, and the
disabled analysis stage contributes nothing (`text = None`, `dfs = None`).
Any exception is caught by the per-file `except`, logged, and the record
is committed as `UPLOAD_FAILED`. The iteration always appends one
`files_meta` entry for the file. -/
def processFile (webbot_id : Int) (e : UploadEnv) (newId : Int) (t : Nat) :
    PerFileRun :=
  let m0 := mkMeta webbot_id e newId t
  let failed : FileRecord := { m0 with status := .str "UPLOAD_FAILED", modified_date := t }
  let run :=
    match e.saveError with
    | some _ =>
      -- `file.save(file_path)` raised: nothing else in the `try` runs.
      (failed, [UploadEvent.dbWrite m0, .stageSave e.filename, .dbWrite failed])
    | none =>
      match S3Handler.upload_files e.s3 with
      | .error _ =>
        -- the push raised (not a ClientError): caught at the per-file
        -- boundary, the record is committed as UPLOAD_FAILED.
        (failed,
         [UploadEvent.dbWrite m0, .stageSave e.filename, .s3Put e.filename,
          .dbWrite failed])
      | .ok _pushedOk =>
        -- the returned boolean (False on ClientError) is discarded: the
        -- success path runs either way.
        let succeeded : FileRecord :=
          { m0 with
            s3_path := .str (s3KeyStart webbot_id ++ e.filename)
            status := .str "UPLOAD_SUCCESS"
            modified_date := t }
        (succeeded,
         [UploadEvent.dbWrite m0, .stageSave e.filename, .s3Put e.filename,
          .dbWrite succeeded])
  { meta := run.fst
    events := run.snd
    entry :=
      { file_id := run.fst.id
        filename := run.fst.name
        status := run.fst.status
        tables := []
        text_file_id := none
        table_count := 0 } }

/-- The whole batch loop: files are processed in order, each `create()`
taking the next primary key; each iteration is a fresh `file_meta` and a
fresh `try`/`except`, so one file's run reads nothing of another's. -/
def uploadBatch (webbot_id : Int) (envs : List UploadEnv) (nextId : Int) (t : Nat) :
    List PerFileRun :=
  match envs with
  | [] => []
  | e :: rest => processFile webbot_id e nextId t :: uploadBatch webbot_id rest (nextId + 1) t

/-- The endpoint's JSON answer: `file_count` and the per-file results. -/
def uploadFile_post (webbot_id : Int) (envs : List UploadEnv) (nextId : Int) (t : Nat) :
    Nat × List UploadEntry :=
  (envs.length, (uploadBatch webbot_id envs nextId t).map (fun r => r.entry))

/-! ## The download endpoint (`DownloadFile.get`) -/

/-- What a download request ends in. The handler never checks
`Files.find` for `None`: on an unknown id the attribute access
`file.name` raises `AttributeError`, which nothing in the handler
catches. -/
inductive DownloadOutcome where
  | sent (filename : Value)
  | raisedAttributeError (msg : String)

/-- `DownloadFile.get` (GET /files/download/{webbot_id}/{file_id}):
look the record up by id, read its name and remote path, fetch from the
object store (the boolean result is discarded), and stream the local file
back. With no record under `file_id`, `Files.find` returns `None` and
`file.name` raises. `s3get` is the outcome of the store fetch. -/
def downloadFile_get (db : Files.DB) (_webbot_id file_id : Int) (s3get : S3Outcome) :
    DownloadOutcome :=
  match Files.find db file_id with
  | none => .raisedAttributeError "NoneType object has no attribute name"
  | some file =>
    match S3Handler.download_files s3get with
    | .error m => .raisedAttributeError m
    | .ok _fetched => .sent file.name

/-- Modelled from the spec: the HTTP status the client sees for each
download outcome. The error-handler module is not under `src/`; spec §7
says an unhandled exception is "surfaced as HTTP 500 with a generic
message", a `send_file` success is 200, and an explicit NotFound abort
would be 404 (no outcome produces one here). -/
def downloadHttpStatus : DownloadOutcome → Nat
  | .sent _ => 200
  | .raisedAttributeError _ => 500

/-! ## Table extraction (`TextractHandler.extract_tables`) -/

/-- `needle` begins `hay` (on character lists). -/
def charsPrefix : List Char → List Char → Bool
  | [], _ => true
  | _ :: _, [] => false
  | a :: as, b :: bs => a == b && charsPrefix as bs

/-- `needle` occurs contiguously somewhere in `hay`. -/
def charsInfix (needle hay : List Char) : Bool :=
  match hay with
  | [] => needle.isEmpty
  | _ :: rest => charsPrefix needle hay || charsInfix needle rest

/-- Case-sensitive substring containment, Python `needle in hay`. -/
def strContains (hay needle : String) : Bool :=
  charsInfix needle.toList hay.toList

/-- Python `str.lower()` (over the ASCII letters the cell texts use). -/
def pyLower (s : String) : String :=
  String.mk (s.toList.map Char.toLower)

/-- Python `str.strip()`. -/
def pyStrip (s : String) : String :=
  String.mk (stripChars s.toList)

/-- The `csv` accumulator of `extract_tables` for one candidate table:
every cell text is `strip().lower()`-ed and suffixed with `":::"`, and
every row ends with a newline. A table is the row/column map produced by
`get_rows_columns_map`, modelled as the list of its rows' cell texts. -/
def flattenTable (rows : List (List String)) : String :=
  String.join (rows.map (fun cols =>
    String.join (cols.map (fun text => pyLower (pyStrip text) ++ ":::")) ++ "\n"))

/-- The `valid_table` flag: kept unconditionally when no column names are
requested, otherwise kept when some requested name `col` satisfies
`col in csv` — a case-sensitive substring test against the lowercased
flattened text. -/
def keepTable (column_names : List String) (rows : List (List String)) : Bool :=
  if column_names.length = 0 then true
  else column_names.any (fun col => strContains (flattenTable rows) col)

/-- `extract_tables`: of the candidate tables found in the blocks, the
ones whose `valid_table` flag is set are parsed into dataframes, in
order (the dataframe parse is the identity on our row model). -/
def extract_tables (tables : List (List (List String))) (column_names : List String) :
    List (List (List String)) :=
  tables.filter (keepTable column_names)

/-! ## Helper lemmas -/

/-- A record returned by `Files.find` carries the looked-up id. -/
theorem find_id_eq (db : Files.DB) (i : Int) (r : FileRecord)
    (h : Files.find db i = some r) : r.id = some i := by
  have hp := List.find?_some h
  simpa using hp

/-- Committing a row under id `i` leaves it retrievable by `Files.find`. -/
theorem find_dbCommit (db : Files.DB) (i : Int) (r r2 : FileRecord)
    (h : Files.find db i = some r) (hid : r2.id = some i) :
    Files.find (dbCommit db i r2) i = some r2 := by
  induction db with
  | nil => simp [Files.find] at h
  | cons x xs ih =>
    by_cases hx : x.id = some i
    · have hb : (x.id == some i) = true := by simp [hx]
      simp [Files.find, dbCommit, List.find?, hb, hid]
    · have hb : (x.id == some i) = false := by simp [hx]
      simp only [Files.find, List.find?, hb] at h
      simp only [Files.find, dbCommit, List.map, hb, Bool.false_eq_true, if_false,
        List.find?, cond_false] at ih ⊢
      exact ih h

/-- Committing one row never changes the number of rows. -/
theorem dbCommit_length (db : Files.DB) (i : Int) (r2 : FileRecord) :
    (dbCommit db i r2).length = db.length := by
  simp [dbCommit]

/-! ## C7 — soft delete -/

def c7rec : FileRecord :=
  { Files.new with
    id := some 1
    name := .str "report.pdf"
    webbot_id := 4
    status := .str "UPLOAD_SUCCESS"
    s3_path := .str "webbot/4/report.pdf"
    created_date := 2
    modified_date := 2 }

/-- C7: the delete operation sets `active` to false and refreshes the
modified timestamp, leaves every other field (id, name, owner id, status,
s3 path, labels, file type, source, source url, creation timestamp,
allow-questions, public, extra info) unchanged, never removes the row
(the committed database keeps its length), and the record is still
returned by `Files.find` afterwards. -/
theorem delete_soft_frame (db : Files.DB) (i : Int) (t : Nat) (r : FileRecord)
    (h : Files.find db i = some r) :
    (Files.delete r t).active = Value.bool false ∧
    (Files.delete r t).modified_date = t ∧
    (Files.delete r t).id = r.id ∧
    (Files.delete r t).name = r.name ∧
    (Files.delete r t).webbot_id = r.webbot_id ∧
    (Files.delete r t).status = r.status ∧
    (Files.delete r t).s3_path = r.s3_path ∧
    (Files.delete r t).labels = r.labels ∧
    (Files.delete r t).file_type = r.file_type ∧
    (Files.delete r t).source = r.source ∧
    (Files.delete r t).source_url = r.source_url ∧
    (Files.delete r t).created_date = r.created_date ∧
    (Files.delete r t).allow_questions = r.allow_questions ∧
    (Files.delete r t).public = r.public ∧
    (Files.delete r t).extra_info = r.extra_info ∧
    (dbCommit db i (Files.delete r t)).length = db.length ∧
    Files.find (dbCommit db i (Files.delete r t)) i = some (Files.delete r t) := by
  have hid : (Files.delete r t).id = some i := by
    have := find_id_eq db i r h
    simpa [Files.delete] using this
  exact ⟨rfl, rfl, rfl, rfl, rfl, rfl, rfl, rfl, rfl, rfl, rfl, rfl, rfl, rfl, rfl,
    dbCommit_length db i (Files.delete r t),
    find_dbCommit db i r (Files.delete r t) h hid⟩

/-- C7 witness: the theorem applied to a one-row store at a concrete
record. -/
theorem delete_soft_frame_witness :
    Files.find [c7rec] 1 = some c7rec ∧
    ((Files.delete c7rec 5).active = Value.bool false ∧
     (Files.delete c7rec 5).modified_date = 5 ∧
     (Files.delete c7rec 5).id = c7rec.id ∧
     (Files.delete c7rec 5).name = c7rec.name ∧
     (Files.delete c7rec 5).webbot_id = c7rec.webbot_id ∧
     (Files.delete c7rec 5).status = c7rec.status ∧
     (Files.delete c7rec 5).s3_path = c7rec.s3_path ∧
     (Files.delete c7rec 5).labels = c7rec.labels ∧
     (Files.delete c7rec 5).file_type = c7rec.file_type ∧
     (Files.delete c7rec 5).source = c7rec.source ∧
     (Files.delete c7rec 5).source_url = c7rec.source_url ∧
     (Files.delete c7rec 5).created_date = c7rec.created_date ∧
     (Files.delete c7rec 5).allow_questions = c7rec.allow_questions ∧
     (Files.delete c7rec 5).public = c7rec.public ∧
     (Files.delete c7rec 5).extra_info = c7rec.extra_info ∧
     (dbCommit [c7rec] 1 (Files.delete c7rec 5)).length = [c7rec].length ∧
     Files.find (dbCommit [c7rec] 1 (Files.delete c7rec 5)) 1 = some (Files.delete c7rec 5)) :=
  ⟨rfl, delete_soft_frame [c7rec] 1 5 c7rec rfl⟩

/-! ## C8 — the object-store put contract -/

/-- C8 counterexample: an upload failure raised as anything other than a
`ClientError` (for example an OS error on the local path, or the
client's failed-upload wrapper exception) escapes `upload_files` — the
operation does raise to its caller, so "never raises" is false. -/
theorem upload_files_raises_counterexample :
    S3Handler.upload_files (S3Outcome.otherError "connection reset by peer") =
      Except.error "connection reset by peer" := rfl

/-- C8 amended: `upload_files` swallows exactly the `ClientError` class
into a logged `False`; when it returns, it returns `True` precisely when
the client call succeeded; a failure raised under any other exception
class propagates to the caller. -/
theorem upload_files_contract (o : S3Outcome) :
    (∀ m, o = S3Outcome.clientError m → S3Handler.upload_files o = .ok false) ∧
    (S3Handler.upload_files o = .ok true ↔ o = S3Outcome.ok) ∧
    (∀ m, o = S3Outcome.otherError m → S3Handler.upload_files o = .error m) := by
  cases o <;> simp [S3Handler.upload_files]

/-! ## C2 — download of an unknown record id -/

def c2db : Files.DB :=
  [{ Files.new with
     id := some 1
     name := .str "a.txt"
     s3_path := .str "webbot/1/a.txt" }]

/-- C2: the handler never checks the lookup result — for the unknown id
99999 `Files.find` returns `none`, the attribute access `file.name`
raises `AttributeError`, and the request surfaces as HTTP 500, not as the
NotFound/404 the claim states. -/
theorem download_unknown_id_raises :
    Files.find c2db 99999 = none ∧
    downloadFile_get c2db 1 99999 S3Outcome.ok =
      DownloadOutcome.raisedAttributeError "NoneType object has no attribute name" ∧
    downloadHttpStatus (downloadFile_get c2db 1 99999 S3Outcome.ok) = 500 ∧
    downloadHttpStatus (downloadFile_get c2db 1 99999 S3Outcome.ok) ≠ 404 := by
  refine ⟨rfl, rfl, rfl, by decide⟩

/-! ## C3 — querying files by owner -/

def c3active : FileRecord :=
  { Files.new with
    id := some 1
    name := .str "kept.txt"
    webbot_id := 7 }

/-- A record of owner 7 that was soft-deleted beforehand. -/
def c3base : FileRecord :=
  { Files.new with
    id := some 2
    name := .str "gone.txt"
    webbot_id := 7 }

def c3deleted : FileRecord :=
  Files.delete c3base 9

/-- C3: the `active == True` clause is discarded — Python `and` evaluates
the truthiness of the first comparison expression (false for a
column-vs-literal `==` under SQLAlchemy), so the filter passed to the
query is the `webbot_id` comparison alone. Both the store finder and the
API listing therefore return the soft-deleted record of owner 7 alongside
the active one, contradicting the claim; in general the finder equals a
plain owner-id filter. -/
theorem find_by_webbot_id_returns_soft_deleted :
    c3deleted.active = Value.bool false ∧
    Files.find_by_webbot_id [c3active, c3deleted] 7 = [c3active, c3deleted] ∧
    filesCollection_get_by_webbot_id [c3active, c3deleted] 7 = [c3active, c3deleted] ∧
    (∀ (db : Files.DB) (w : Int),
      Files.find_by_webbot_id db w = db.filter (fun r => r.webbot_id == w)) := by
  exact ⟨rfl, rfl, rfl, fun db w => rfl⟩

/-! ## C9 — the column-name filter of table extraction -/

/-- The spec's filter predicate, in its words: the requested column name
must occur as a case-insensitive substring of the flattened row text. -/
def specCaseInsensitiveMatch (col flat : String) : Bool :=
  strContains (pyLower flat) (pyLower col)

/-- C9 counterexample: the code lowercases the cell text but not the
requested name, so the match is case-sensitive on the filter side. The
table whose one cell reads "Price" flattens to "price:::\n"; the
requested name "Price" matches it case-insensitively (the claim would
keep the table), yet `valid_table` is false and the table is dropped. -/
theorem keepTable_not_case_insensitive :
    flattenTable [["Price"]] = "price:::\n" ∧
    specCaseInsensitiveMatch "Price" (flattenTable [["Price"]]) = true ∧
    keepTable ["Price"] [["Price"]] = false ∧
    extract_tables [[["Price"]]] ["Price"] = [] := by
  refine ⟨?_, ?_, ?_, ?_⟩ <;> decide

/-- C9 amended: a candidate table is kept iff the filter list is empty or
some requested column name occurs — case-sensitively, verbatim — as a
substring of the lowercased flattened row text; with an empty filter
every table is kept. -/
theorem extract_tables_filter (column_names : List String)
    (tables : List (List (List String))) (t : List (List String)) :
    t ∈ extract_tables tables column_names ↔
      t ∈ tables ∧
        (column_names = [] ∨
          ∃ col ∈ column_names, strContains (flattenTable t) col = true) := by
  simp only [extract_tables, List.mem_filter, keepTable]
  constructor
  · rintro ⟨h1, h2⟩
    refine ⟨h1, ?_⟩
    by_cases hc : column_names.length = 0
    · exact Or.inl (List.length_eq_zero.mp hc)
    · rw [if_neg hc] at h2
      exact Or.inr (List.any_eq_true.mp h2)
  · rintro ⟨h1, h2 | h2⟩
    · exact ⟨h1, by simp [h2]⟩
    · refine ⟨h1, ?_⟩
      rcases h2 with ⟨col, hmem, hsub⟩
      by_cases hc : column_names.length = 0
      · simp [hc]
      · rw [if_neg hc]
        exact List.any_eq_true.mpr ⟨col, hmem, hsub⟩

/-! ## Deserialization lemmas shared by C5, C6 and C10 -/

/-- Deserializing the serialization of any record succeeds and restores
every deserializable attribute onto the target instance. -/
theorem deserialize_serialize (r self : FileRecord) :
    Files.deserialize (.dict (Files.serialize r)) self =
      .ok { self with
            name := r.name
            labels := r.labels
            webbot_id := r.webbot_id
            s3_path := r.s3_path
            file_type := r.file_type
            source := r.source
            active := r.active
            status := r.status
            allow_questions := r.allow_questions
            extra_info := r.extra_info
            source_url := r.source_url
            public := r.public } := rfl

/-- `deserialize` never reads `id`, `created_date` or `modified_date` from
the input map: a successful deserialization keeps the target instance's
values for them. -/
theorem deserialize_frame (data : Value) (self out : FileRecord)
    (h : Files.deserialize data self = .ok out) :
    out.id = self.id ∧ out.created_date = self.created_date ∧
    out.modified_date = self.modified_date := by
  cases data with
  | dict es =>
    simp only [Files.deserialize] at h
    cases hn : dictLookup es "name" with
    | none => simp [hn] at h
    | some nv =>
      cases hw : dictLookup es "webbot_id" with
      | none => simp [hn, hw] at h
      | some wv =>
        cases hp : pyInt wv with
        | error pe => cases pe <;> simp [hn, hw, hp] at h
        | ok w =>
          simp only [hn, hw, hp, Except.ok.injEq] at h
          subst h
          exact ⟨rfl, rfl, rfl⟩
  | null => simp [Files.deserialize] at h
  | bool b => simp [Files.deserialize] at h
  | int n => simp [Files.deserialize] at h
  | str s => simp [Files.deserialize] at h
  | list xs => simp [Files.deserialize] at h

/-! ## C5 — create/serialize/deserialize round trip -/

/-- C5: for a payload accepted by `deserialize` (a valid create payload,
exactly what `FilesCollection.post` runs before `create()`), the record
made by `create` carries a freshly assigned id and freshly stamped
created/modified timestamps, and deserializing its serialization
reproduces every payload-settable field of the created record. -/
theorem create_serialize_roundtrip (d : Value) (r0 : FileRecord) (i : Int)
    (t : Nat) (_h : Files.deserialize d Files.new = .ok r0) :
    (Files.create r0 i t).id = some i ∧
    (Files.create r0 i t).created_date = t ∧
    (Files.create r0 i t).modified_date = t ∧
    ∃ r2, Files.deserialize
        (.dict (Files.serialize (Files.create r0 i t))) Files.new = .ok r2 ∧
      r2.name = r0.name ∧ r2.labels = r0.labels ∧ r2.webbot_id = r0.webbot_id ∧
      r2.s3_path = r0.s3_path ∧ r2.file_type = r0.file_type ∧
      r2.source = r0.source ∧ r2.active = r0.active ∧ r2.status = r0.status ∧
      r2.allow_questions = r0.allow_questions ∧
      r2.extra_info = r0.extra_info ∧ r2.source_url = r0.source_url ∧
      r2.public = r0.public :=
  ⟨rfl, rfl, rfl,
    ⟨_, deserialize_serialize (Files.create r0 i t) Files.new,
      rfl, rfl, rfl, rfl, rfl, rfl, rfl, rfl, rfl, rfl, rfl, rfl⟩⟩

def c5payload : Value :=
  .dict [("name", .str "a.txt"), ("webbot_id", .int 7), ("public", .bool true)]

def c5rec : FileRecord :=
  { Files.new with
    name := .str "a.txt"
    webbot_id := 7
    public := .bool true }

/-- C5 witness: the round trip at a concrete create payload. -/
theorem create_serialize_roundtrip_witness :
    Files.deserialize c5payload Files.new = .ok c5rec ∧
    ((Files.create c5rec 5 11).id = some 5 ∧
     (Files.create c5rec 5 11).created_date = 11 ∧
     (Files.create c5rec 5 11).modified_date = 11 ∧
     ∃ r2, Files.deserialize
         (.dict (Files.serialize (Files.create c5rec 5 11))) Files.new = .ok r2 ∧
       r2.name = c5rec.name ∧ r2.labels = c5rec.labels ∧
       r2.webbot_id = c5rec.webbot_id ∧ r2.s3_path = c5rec.s3_path ∧
       r2.file_type = c5rec.file_type ∧ r2.source = c5rec.source ∧
       r2.active = c5rec.active ∧ r2.status = c5rec.status ∧
       r2.allow_questions = c5rec.allow_questions ∧
       r2.extra_info = c5rec.extra_info ∧ r2.source_url = c5rec.source_url ∧
       r2.public = c5rec.public) :=
  ⟨rfl, create_serialize_roundtrip c5payload c5rec 5 11 rfl⟩

/-! ## C6 — deserialization of an untrusted map -/

/-- C6: on an untrusted input, `deserialize` (i) fails naming the missing
field when `name` or `webbot_id` is absent, (ii) fails with a validation
error whenever the owner id value is not coercible by `int(...)`,
(iii) fills every optional field with its documented default when the
key is absent, and (iv) fails with a validation error on every non-dict
input. -/
theorem deserialize_untrusted_contract :
    (∀ (es : List (String × Value)) (self : FileRecord),
      dictLookup es "name" = none →
        Files.deserialize (.dict es) self =
          .error ("Invalid File: missing " ++ "name")) ∧
    (∀ (es : List (String × Value)) (self : FileRecord) (v : Value),
      dictLookup es "name" = some v → dictLookup es "webbot_id" = none →
        Files.deserialize (.dict es) self =
          .error ("Invalid File: missing " ++ "webbot_id")) ∧
    (∀ (es : List (String × Value)) (self : FileRecord) (v : Value) (pe : PyErr),
      dictLookup es "webbot_id" = some v → pyInt v = .error pe →
        ∃ m, Files.deserialize (.dict es) self = .error m) ∧
    (∀ (es : List (String × Value)) (self : FileRecord) (nameV wv : Value) (n : Int),
      dictLookup es "name" = some nameV →
      dictLookup es "webbot_id" = some wv → pyInt wv = .ok n →
      dictLookup es "labels" = none → dictLookup es "s3_path" = none →
      dictLookup es "file_type" = none → dictLookup es "source" = none →
      dictLookup es "active" = none → dictLookup es "status" = none →
      dictLookup es "allow_questions" = none → dictLookup es "extra_info" = none →
      dictLookup es "source_url" = none → dictLookup es "public" = none →
        Files.deserialize (.dict es) self =
          .ok { self with
                name := nameV
                labels := .dict []
                webbot_id := n
                s3_path := .str ""
                file_type := .str ""
                source := .str "KNOWLEDGE"
                active := .bool true
                status := .str "CREATED"
                allow_questions := .bool true
                extra_info := .dict []
                source_url := .null
                public := .bool false }) ∧
    (∀ (v : Value) (self : FileRecord), v.isDict = false →
      ∃ m, Files.deserialize v self = .error m) := by
  refine ⟨?_, ?_, ?_, ?_, ?_⟩
  · intro es self h
    simp [Files.deserialize, h]
  · intro es self v h1 h2
    simp [Files.deserialize, h1, h2]
  · intro es self v pe h1 h2
    cases hn : dictLookup es "name" with
    | none =>
      exact ⟨"Invalid File: missing " ++ "name", by simp [Files.deserialize, hn]⟩
    | some nv =>
      cases pe with
      | keyError k =>
        exact ⟨"Invalid File: missing " ++ k,
          by simp [Files.deserialize, hn, h1, h2]⟩
      | typeError m =>
        exact ⟨"Invalid File: body of request contained bad or no data " ++ m,
          by simp [Files.deserialize, hn, h1, h2]⟩
      | valueError m =>
        exact ⟨"Invalid Webbot: body of request contained bad or no data " ++ m,
          by simp [Files.deserialize, hn, h1, h2]⟩
  · intro es self nameV wv n h1 h2 h3 h4 h5 h6 h7 h8 h9 h10 h11 h12 h13
    simp [Files.deserialize, h1, h2, h3, h4, h5, h6, h7, h8, h9, h10, h11, h12, h13]
  · intro v self hv
    cases v with
    | dict es => simp [Value.isDict] at hv
    | null => exact ⟨_, rfl⟩
    | bool b => exact ⟨_, rfl⟩
    | int n => exact ⟨_, rfl⟩
    | str s => exact ⟨_, rfl⟩
    | list xs => exact ⟨_, rfl⟩

/-- C6 witness: each part of the contract exercised at a concrete input:
an empty map, a map missing the owner id, an owner id that
`int(...)` rejects, a minimal map relying on every default, and a
non-dict (list) input. -/
theorem deserialize_untrusted_contract_witness :
    Files.deserialize (.dict []) Files.new =
      .error ("Invalid File: missing " ++ "name") ∧
    Files.deserialize (.dict [("name", .str "x")]) Files.new =
      .error ("Invalid File: missing " ++ "webbot_id") ∧
    (∃ m, Files.deserialize
        (.dict [("name", .str "x"), ("webbot_id", .str "abc")]) Files.new =
      .error m) ∧
    Files.deserialize (.dict [("name", .str "x"), ("webbot_id", .int 7)]) Files.new =
      .ok { Files.new with
            name := .str "x"
            labels := .dict []
            webbot_id := 7
            s3_path := .str ""
            file_type := .str ""
            source := .str "KNOWLEDGE"
            active := .bool true
            status := .str "CREATED"
            allow_questions := .bool true
            extra_info := .dict []
            source_url := .null
            public := .bool false } ∧
    (∃ m, Files.deserialize (.list []) Files.new = .error m) :=
  ⟨deserialize_untrusted_contract.1 [] Files.new rfl,
   deserialize_untrusted_contract.2.1 [("name", .str "x")] Files.new (.str "x") rfl rfl,
   deserialize_untrusted_contract.2.2.1 [("name", .str "x"), ("webbot_id", .str "abc")]
     Files.new (.str "abc")
     (.valueError ("invalid literal for int with base 10: " ++ "abc")) rfl rfl,
   deserialize_untrusted_contract.2.2.2.1 [("name", .str "x"), ("webbot_id", .int 7)]
     Files.new (.str "x") (.int 7) 7 rfl rfl rfl rfl rfl rfl rfl rfl rfl rfl rfl rfl rfl,
   deserialize_untrusted_contract.2.2.2.2 (.list []) Files.new rfl⟩

/-! ## C10 — PUT cannot change identity or creation timestamp -/

/-- C10: a successful `PUT /files/{id}` leaves the stored record's
identity and creation timestamp intact whatever the payload contains:
`deserialize` never reads `id`/`created_date`/`modified_date` from the
body, the route reassigns the path id before `update()`, and afterwards
the stored record is found under the path id with its original creation
timestamp (and a refreshed modified timestamp). -/
theorem put_preserves_identity (db : Files.DB) (file_id : Int) (data : Value)
    (t : Nat) (r : FileRecord) (db2 : Files.DB) (rec : FileRecord)
    (hfind : Files.find db file_id = some r)
    (hput : filesResource_put db file_id data t = PutResult.ok200 db2 rec) :
    rec.id = some file_id ∧ rec.created_date = r.created_date ∧
    rec.modified_date = t ∧ Files.find db2 file_id = some rec := by
  simp only [filesResource_put, hfind] at hput
  cases hdes : Files.deserialize data r with
  | error m => simp only [hdes] at hput; cases hput
  | ok f1 =>
    simp only [hdes] at hput
    by_cases hz : file_id = 0
    · subst hz
      simp [Files.update] at hput
    · have hupd : Files.update { f1 with id := some file_id } t =
          .ok { f1 with id := some file_id, modified_date := t } := by
        simp [Files.update, hz]
      rw [hupd] at hput
      cases hput
      have hframe := deserialize_frame data r f1 hdes
      exact ⟨rfl, hframe.2.1, rfl, find_dbCommit db file_id r _ hfind rfl⟩

def c10orig : FileRecord :=
  { Files.new with
    id := some 3
    name := .str "old.txt"
    webbot_id := 4
    created_date := 2
    modified_date := 2 }

def c10db : Files.DB := [c10orig]

/-- An update body that tries to smuggle in a different id and different
timestamps. -/
def c10payload : Value :=
  .dict [("name", .str "new.txt"), ("webbot_id", .int 9), ("id", .int 77),
         ("created_date", .str "1999"), ("modified_date", .str "1999")]

/-- The record the route commits for that request. -/
def c10rec : FileRecord :=
  { Files.new with
    id := some 3
    name := .str "new.txt"
    webbot_id := 9
    created_date := 2
    modified_date := 8 }

/-- C10 witness: the PUT at a concrete store and a payload that supplies
`id`, `created_date` and `modified_date` keys; the stored record keeps
id 3 and creation tick 2. -/
theorem put_preserves_identity_witness :
    Files.find c10db 3 = some c10orig ∧
    filesResource_put c10db 3 c10payload 8 =
      PutResult.ok200 (dbCommit c10db 3 c10rec) c10rec ∧
    (c10rec.id = some 3 ∧ c10rec.created_date = c10orig.created_date ∧
     c10rec.modified_date = 8 ∧
     Files.find (dbCommit c10db 3 c10rec) 3 = some c10rec) :=
  ⟨rfl, rfl,
    put_preserves_identity c10db 3 c10payload 8 c10orig
      (dbCommit c10db 3 c10rec) c10rec rfl rfl⟩

/-! ## C4 — the writes observable while a file is uploaded -/

def c4env : UploadEnv :=
  { filename := "a.txt"
    guessedType := .str "text/plain"
    saveError := none
    s3 := .ok }

/-- C4 counterexample: for a concrete uploaded file the observable event
trace holds exactly one committed write before the staging save and the
store push, and that write already carries status `UPLOADING`; no
committed write with status `CREATED` ever occurs, against the claimed
`CREATED`-then-`UPLOADING` pair of writes. -/
theorem upload_no_created_write :
    (processFile 7 c4env 1 0).events =
      [UploadEvent.dbWrite (mkMeta 7 c4env 1 0),
       UploadEvent.stageSave "a.txt",
       UploadEvent.s3Put "a.txt",
       UploadEvent.dbWrite
         { mkMeta 7 c4env 1 0 with
           s3_path := .str "webbot/7/a.txt"
           status := .str "UPLOAD_SUCCESS" }] ∧
    (mkMeta 7 c4env 1 0).status = Value.str "UPLOADING" ∧
    (processFile 7 c4env 1 0).events.countP
      (UploadEvent.isWriteWithStatus "CREATED") = 0 ∧
    (processFile 7 c4env 1 0).events.countP
      (UploadEvent.isWriteWithStatus "UPLOADING") = 1 := by
  refine ⟨rfl, rfl, ?_, ?_⟩ <;> rfl

/-- C4 amended: for every submitted file the orchestrator persists the
fresh record exactly once before any staging or object-store
interaction, and that single observable write already has status
`UPLOADING`; no write with status `CREATED` is ever committed during the
upload. -/
theorem upload_single_uploading_write (webbot_id : Int) (e : UploadEnv)
    (newId : Int) (t : Nat) :
    (processFile webbot_id e newId t).events.take 2 =
      [UploadEvent.dbWrite (mkMeta webbot_id e newId t),
       UploadEvent.stageSave e.filename] ∧
    (mkMeta webbot_id e newId t).status = Value.str "UPLOADING" ∧
    (processFile webbot_id e newId t).events.countP
      (UploadEvent.isWriteWithStatus "CREATED") = 0 := by
  refine ⟨?_, rfl, ?_⟩
  · cases hs : e.saveError with
    | some m => simp [processFile, hs]
    | none =>
      cases h3 : e.s3 with
      | ok => simp [processFile, hs, h3, S3Handler.upload_files]
      | clientError m => simp [processFile, hs, h3, S3Handler.upload_files]
      | otherError m => simp [processFile, hs, h3, S3Handler.upload_files]
  · cases hs : e.saveError with
    | some m =>
      simp [processFile, hs, List.countP, List.countP.go,
        UploadEvent.isWriteWithStatus, mkMeta, Files.create, Files.new]
    | none =>
      cases h3 : e.s3 with
      | ok =>
        simp [processFile, hs, h3, S3Handler.upload_files, List.countP,
          List.countP.go, UploadEvent.isWriteWithStatus, mkMeta, Files.create,
          Files.new]
      | clientError m =>
        simp [processFile, hs, h3, S3Handler.upload_files, List.countP,
          List.countP.go, UploadEvent.isWriteWithStatus, mkMeta, Files.create,
          Files.new]
      | otherError m =>
        simp [processFile, hs, h3, S3Handler.upload_files, List.countP,
          List.countP.go, UploadEvent.isWriteWithStatus, mkMeta, Files.create,
          Files.new]

/-! ## C1 — per-file failure isolation in a batch upload -/

theorem uploadBatch_length (w : Int) (envs : List UploadEnv) (n : Int) (t : Nat) :
    (uploadBatch w envs n t).length = envs.length := by
  induction envs generalizing n with
  | nil => rfl
  | cons e rest ih => simp [uploadBatch, ih]

theorem uploadBatch_getElem? (w : Int) (envs : List UploadEnv) (n : Int) (t : Nat)
    (k : Nat) :
    (uploadBatch w envs n t)[k]? =
      (envs[k]?).map (fun e => processFile w e (n + k) t) := by
  induction envs generalizing n k with
  | nil => simp [uploadBatch]
  | cons e rest ih =>
    cases k with
    | zero => simp [uploadBatch]
    | succ j =>
      simp only [uploadBatch, List.getElem?_cons_succ, ih (n + 1) j]
      have harg : (n + 1) + (j : Int) = n + ((j + 1 : Nat) : Int) := by
        push_cast
        ring
      simp only [harg]

def c1ok : UploadEnv :=
  { filename := "a.txt"
    guessedType := .str "text/plain"
    saveError := none
    s3 := .ok }

/-- A file whose object-store push fails with a `ClientError` (swallowed
into a `False` return by the store client). -/
def c1clientFail : UploadEnv :=
  { filename := "b.txt"
    guessedType := .str "text/plain"
    saveError := none
    s3 := .clientError "AccessDenied" }

/-- A file whose object-store push failure is raised (an exception class
other than `ClientError`). -/
def c1raiseFail : UploadEnv :=
  { filename := "b.txt"
    guessedType := .str "text/plain"
    saveError := none
    s3 := .otherError "S3UploadFailedError" }

/-- C1 counterexample: in a batch of two files whose second push fails
with a `ClientError`, the route ignores the `False` returned by
`upload_files` and commits the record as `UPLOAD_SUCCESS` with the remote
path recorded — not the `UPLOAD_FAILED` transition the claim states. -/
theorem upload_batch_client_error_marked_success :
    c1clientFail.s3 = S3Outcome.clientError "AccessDenied" ∧
    S3Handler.upload_files c1clientFail.s3 = .ok false ∧
    ((uploadBatch 7 [c1ok, c1clientFail] 1 0).map (fun r => r.entry.status)) =
      [Value.str "UPLOAD_SUCCESS", Value.str "UPLOAD_SUCCESS"] ∧
    ((uploadBatch 7 [c1ok, c1clientFail] 1 0).map (fun r => r.meta.status)) =
      [Value.str "UPLOAD_SUCCESS", Value.str "UPLOAD_SUCCESS"] ∧
    ((uploadBatch 7 [c1ok, c1clientFail] 1 0).map (fun r => r.meta.s3_path)) =
      [Value.str "webbot/7/a.txt", Value.str "webbot/7/b.txt"] := by
  exact ⟨rfl, rfl, rfl, rfl, rfl⟩

/-- C1 amended: when the object-store push for file `k` of a batch fails
by raising (any exception class other than `ClientError`, which the store
client swallows into an ignored `False`), the endpoint still produces one
result per submitted file; file `k`'s record is committed as
`UPLOAD_FAILED` (the trace's last event is that write), its remote path
stays unset, its per-file result reports `UPLOAD_FAILED` (the error is
not raised to the caller), and the runs of all other files are exactly
what they would be with any other outcome in slot `k`. -/
theorem upload_batch_raising_failure_isolated (w : Int) (envs : List UploadEnv)
    (n : Int) (t : Nat) (k : Nat) (e : UploadEnv) (m : String)
    (hk : envs[k]? = some e) (hsave : e.saveError = none)
    (hfail : e.s3 = S3Outcome.otherError m) :
    (uploadBatch w envs n t).length = envs.length ∧
    (uploadBatch w envs n t)[k]? = some (processFile w e (n + k) t) ∧
    (processFile w e (n + k) t).meta.status = Value.str "UPLOAD_FAILED" ∧
    (processFile w e (n + k) t).entry.status = Value.str "UPLOAD_FAILED" ∧
    (processFile w e (n + k) t).meta.s3_path = Value.str "" ∧
    (processFile w e (n + k) t).events.getLast? =
      some (UploadEvent.dbWrite (processFile w e (n + k) t).meta) ∧
    (∀ (e2 : UploadEnv) (j : Nat), j ≠ k →
      (uploadBatch w (envs.set k e2) n t)[j]? = (uploadBatch w envs n t)[j]?) := by
  have hrun : processFile w e (n + k) t =
      { meta := { mkMeta w e (n + k) t with
                  status := .str "UPLOAD_FAILED", modified_date := t }
        events := [UploadEvent.dbWrite (mkMeta w e (n + k) t),
                   .stageSave e.filename, .s3Put e.filename,
                   .dbWrite { mkMeta w e (n + k) t with
                              status := .str "UPLOAD_FAILED", modified_date := t }]
        entry := { file_id := some (n + k)
                   filename := .str e.filename
                   status := .str "UPLOAD_FAILED"
                   tables := []
                   text_file_id := none
                   table_count := 0 } } := by
    simp [processFile, hsave, hfail, S3Handler.upload_files, mkMeta, Files.create]
  refine ⟨uploadBatch_length w envs n t, ?_, ?_, ?_, ?_, ?_, ?_⟩
  · rw [uploadBatch_getElem? w envs n t k, hk]; rfl
  · rw [hrun]
  · rw [hrun]
  · rw [hrun]; simp [mkMeta, Files.create, Files.new]
  · rw [hrun]; rfl
  · intro e2 j hj
    rw [uploadBatch_getElem? w (envs.set k e2) n t j,
      uploadBatch_getElem? w envs n t j, List.getElem?_set_ne (fun h => hj h.symm)]

/-- C1 witness: the amended theorem applied to a two-file batch whose
second push raises. -/
theorem upload_batch_raising_failure_isolated_witness :
    [c1ok, c1raiseFail][1]? = some c1raiseFail ∧
    c1raiseFail.saveError = none ∧
    c1raiseFail.s3 = S3Outcome.otherError "S3UploadFailedError" ∧
    ((uploadBatch 7 [c1ok, c1raiseFail] 1 0).length = [c1ok, c1raiseFail].length ∧
     (uploadBatch 7 [c1ok, c1raiseFail] 1 0)[1]? =
       some (processFile 7 c1raiseFail 2 0) ∧
     (processFile 7 c1raiseFail 2 0).meta.status = Value.str "UPLOAD_FAILED" ∧
     (processFile 7 c1raiseFail 2 0).entry.status = Value.str "UPLOAD_FAILED" ∧
     (processFile 7 c1raiseFail 2 0).meta.s3_path = Value.str "" ∧
     (processFile 7 c1raiseFail 2 0).events.getLast? =
       some (UploadEvent.dbWrite (processFile 7 c1raiseFail 2 0).meta) ∧
     (∀ (e2 : UploadEnv) (j : Nat), j ≠ 1 →
       (uploadBatch 7 ([c1ok, c1raiseFail].set 1 e2) 1 0)[j]? =
         (uploadBatch 7 [c1ok, c1raiseFail] 1 0)[j]?)) :=
  ⟨rfl, rfl, rfl,
    upload_batch_raising_failure_isolated 7 [c1ok, c1raiseFail] 1 0 1 c1raiseFail
      "S3UploadFailedError" rfl rfl rfl⟩

end FilesService
